import Mathlib

/-
Verification development for the map_generator.py / streamlit_app.py
energy-consumption dashboard.  The Python source is embedded shallowly:
pure helpers become Lean functions, pandas column transformations become
functions over lists of row structures, exceptions become Option/Except,
machine floats used only for comparisons and parsing become rationals,
and the real-valued great-circle geometry is modelled over the reals.
-/

----------------------------------------------------------------------
-- Python string primitives, modelled over explicit character lists
----------------------------------------------------------------------

/-- Characters treated as whitespace by Python str.strip and float/int
parsing: space, tab, newline, carriage return, vertical tab, form feed. -/
def isPySpace (c : Char) : Bool :=
  c = ' ' ∨ c = '\t' ∨ c = '\n' ∨ c = '\r' ∨ c = '\x0b' ∨ c = '\x0c'

/-- Python str.strip on a character list: drop whitespace from both ends. -/
def pyStrip (l : List Char) : List Char :=
  ((l.dropWhile isPySpace).reverse.dropWhile isPySpace).reverse

/-- Auxiliary splitter accumulating the current field in reverse. -/
def splitOnCharAux (sep : Char) : List Char → List Char → List (List Char)
  | [], acc => [acc.reverse]
  | c :: cs, acc =>
    if c = sep then acc.reverse :: splitOnCharAux sep cs []
    else splitOnCharAux sep cs (c :: acc)

/-- Python str.split with a one-character separator; like Python, the
empty string splits to one empty field, never to an empty list. -/
def splitOnChar (sep : Char) (l : List Char) : List (List Char) :=
  splitOnCharAux sep l []

/-- Numeric value of a digit list, most significant digit first. -/
def digitsVal (l : List Char) : ℕ :=
  l.foldl (fun n c => 10 * n + (c.toNat - 48)) 0

/-- Python int(str) on a character list: optional surrounding whitespace,
optional sign, then at least one decimal digit; anything else raises,
modelled as none. -/
def pyIntChars? (l : List Char) : Option ℤ :=
  match pyStrip l with
  | '-' :: rest =>
    if rest ≠ [] ∧ rest.all Char.isDigit then some (-(digitsVal rest : ℤ)) else none
  | '+' :: rest =>
    if rest ≠ [] ∧ rest.all Char.isDigit then some ((digitsVal rest : ℤ)) else none
  | t =>
    if t ≠ [] ∧ t.all Char.isDigit then some ((digitsVal t : ℤ)) else none

/-- Magnitude part of Python float(str): digits with an optional single
decimal point, at least one digit overall ("12", "12.", ".5", "12.5").
Exponent, infinity and nan spellings are not exercised by the data flow
modelled here and parse to none. -/
def pyFloatMagChars? (t : List Char) : Option ℚ :=
  match splitOnChar '.' t with
  | [ip] =>
    if ip ≠ [] ∧ ip.all Char.isDigit then some (mkRat (digitsVal ip) 1) else none
  | [ip, fp] =>
    if (ip ≠ [] ∨ fp ≠ []) ∧ ip.all Char.isDigit ∧ fp.all Char.isDigit then
      some (mkRat (digitsVal ip * 10 ^ fp.length + digitsVal fp) (10 ^ fp.length))
    else none
  | _ => none

/-- Python float(str) on a character list: strip whitespace, optional
sign, then a decimal magnitude; failure is none. -/
def pyFloatChars? (l : List Char) : Option ℚ :=
  match pyStrip l with
  | '-' :: rest => (pyFloatMagChars? rest).map (fun q => -q)
  | '+' :: rest => pyFloatMagChars? rest
  | t => pyFloatMagChars? t

/-- Python int(str) on a String. -/
def pyInt? (s : String) : Option ℤ := pyIntChars? s.data

/-- Python float(str) on a String. -/
def pyFloat? (s : String) : Option ℚ := pyFloatChars? s.data

/-- Python int() applied to a float value: truncation toward zero. -/
def pyFloatToInt (q : ℚ) : ℤ := Int.tdiv q.num (q.den : ℤ)

/-- Left-to-right effectful map over Option, modelling a Python list
comprehension in which each element computation may raise. -/
def mapOpt {α β : Type} (f : α → Option β) : List α → Option (List β)
  | [] => some []
  | a :: t =>
    match f a, mapOpt f t with
    | some b, some tb => some (b :: tb)
    | _, _ => none

----------------------------------------------------------------------
-- Consumption matrix (map_generator.py, parse_matrice and
-- extract_min_consumption, lines 21-42)
----------------------------------------------------------------------

/-- One element of the JSON consumption matrix; every field is accessed
through dict.get with a default in the source, so all are optional.
The CONSO field is kept as the numeric value float() yields on it. -/
structure ConsumptionEntry where
  OPERATEUR : Option String
  ANNEE : Option String
  CODE_SECTEUR_NAF2_CODE : Option String
  CONSO : Option ℚ
  PDL : Option String
deriving DecidableEq

/-- Outcome of json.loads on the matrice column, as seen by
parse_matrice: the column is missing (NaN), the text fails to decode,
it decodes to a single object, to an array of objects, or to a value of
some other type.  The json module is external library code, so its
outcome is the input of the embedding. -/
inductive MatriceDecode where
  | missing : MatriceDecode
  | failure : MatriceDecode
  | objEntry : ConsumptionEntry → MatriceDecode
  | arrEntries : List ConsumptionEntry → MatriceDecode
  | other : MatriceDecode
deriving DecidableEq

/-- parse_matrice: NaN gives [], a decode error is logged and gives [],
a dict gives a one-element list, a list is returned as is, any other
decoded type is logged and gives []. -/
def parse_matrice : MatriceDecode → List ConsumptionEntry
  | MatriceDecode.missing => []
  | MatriceDecode.failure => []
  | MatriceDecode.objEntry e => [e]
  | MatriceDecode.arrEntries l => l
  | MatriceDecode.other => []

/-- Value contributed by one entry: float(entry.get("CONSO", 0)). -/
def entryConso (e : ConsumptionEntry) : ℚ := e.CONSO.getD 0

/-- extract_min_consumption: the Python min over the CONSO list when it
is nonempty, np.inf (the top element) when it is empty. -/
def extract_min_consumption (m : MatriceDecode) : WithTop ℚ :=
  match (parse_matrice m).map entryConso with
  | [] => (⊤ : WithTop ℚ)
  | c :: cs => ((cs.foldl min c : ℚ) : WithTop ℚ)

/-- Threshold filter applied in create_map_html, line 397:
subset[subset["min_conso"] >= conso_min]. -/
def min_conso_filter (min_conso : WithTop ℚ) (conso_min : ℚ) : Bool :=
  decide ((conso_min : WithTop ℚ) ≤ min_conso)

----------------------------------------------------------------------
-- Pure lookup and policy helpers
----------------------------------------------------------------------

/-- code_jurid_to_str (lines 54-62): NaN gives the empty string; the
code is parsed by str(int(float(val))) and looked up, any parse failure
or lookup miss giving "Inconnu". -/
def code_jurid_to_str (val : Option String) (code_to_description : List (String × String)) :
    String :=
  match val with
  | none => ""
  | some s =>
    match pyFloat? s with
    | none => "Inconnu"
    | some q => (code_to_description.lookup (toString (pyFloatToInt q))).getD "Inconnu"

/-- get_perimetre_from_dens (lines 95-107): density classes 3 and 4 map
to 10 km, classes of at least 5 to 20 km, everything else to 0 km. -/
def get_perimetre_from_dens (dens_value : ℤ) : ℤ :=
  if dens_value = 3 ∨ dens_value = 4 then 10
  else if 5 ≤ dens_value then 20
  else 0

----------------------------------------------------------------------
-- Great-circle geometry (haversine_distance, lines 44-52, and the
-- BallTree radius query of create_map_html, lines 388-396)
----------------------------------------------------------------------

/-- np.radians: degrees to radians. -/
noncomputable def radians (x : ℝ) : ℝ := x * (Real.pi / 180)

/-- Haversine metric on coordinates already given in radians, the
metric sklearn evaluates for metric="haversine":
2 * arcsin(sqrt(sin((lat2-lat1)/2)^2 + cos lat1 cos lat2 sin((lon2-lon1)/2)^2)). -/
noncomputable def hav_metric (lat1 lon1 lat2 lon2 : ℝ) : ℝ :=
  2 * Real.arcsin (Real.sqrt (Real.sin ((lat2 - lat1) / 2) ^ 2 +
    Real.cos lat1 * Real.cos lat2 * Real.sin ((lon2 - lon1) / 2) ^ 2))

/-- haversine_distance (lines 44-52): inputs in degrees, output in
kilometers with Earth radius R = 6371.0. -/
noncomputable def haversine_distance (lat1 lon1 lat2 lon2 : ℝ) : ℝ :=
  6371.0 * (2 * Real.arcsin (Real.sqrt (Real.sin (radians (lat2 - lat1) / 2) ^ 2 +
    Real.cos (radians lat1) * Real.cos (radians lat2) *
      Real.sin (radians (lon2 - lon1) / 2) ^ 2)))

/-- Modelled from the documented semantics of the external
sklearn.neighbors.BallTree: query_radius on a tree built from a list of
(lat, lon) pairs in radians returns exactly the indices whose haversine
metric distance from the query point is at most r.  Index membership is
expressed through list lookup. -/
def query_radius_set (pts : List (ℝ × ℝ)) (center : ℝ × ℝ) (r : ℝ) : Set ℕ :=
  {i | ∃ p, pts[i]? = some p ∧ hav_metric center.1 center.2 p.1 p.2 ≤ r}

/-- Brute-force haversine scan over the same points, given in degrees,
keeping the indices within radius_km of the origin. -/
def brute_scan_set (pts : List (ℝ × ℝ)) (origin : ℝ × ℝ) (radius_km : ℝ) : Set ℕ :=
  {i | ∃ p, pts[i]? = some p ∧ haversine_distance origin.1 origin.2 p.1 p.2 ≤ radius_km}

----------------------------------------------------------------------
-- Ownership record store (data_mo_part*.csv) and its consumers
----------------------------------------------------------------------

/-- One row of data_mo_part*.csv with the dtypes given in load_data;
string columns may be missing (NaN). -/
structure MoRow where
  id_moral : Option String
  siren_proprietaire : Option String
  denomination_proprietaire : Option String
  adresse : Option String
  code_forme_juridique_proprietaire : Option String
  activitePrincipaleEtablissement : Option String
  latitude : ℝ
  longitude : ℝ

/-- get_entreprises (lines 190-198): walk the matched line numbers in
order; a number present in the dict contributes its row, a missing one
is logged as a warning and skipped.  The second component collects the
warned-about missing numbers. -/
def get_entreprises : List ℤ → List (ℤ × MoRow) → List MoRow × List ℤ
  | [], _ => ([], [])
  | ln :: rest, d =>
    let r := get_entreprises rest d
    match d.lookup ln with
    | some row => (row :: r.1, r.2)
    | none => (r.1, ln :: r.2)

/-- Pairing performed by create_popup, line 166:
zip(entreprises, matched_distances). -/
def popup_entreprise_rows (entreprises : List MoRow) (matched_distances : List ℚ) :
    List (MoRow × ℚ) :=
  entreprises.zip matched_distances

----------------------------------------------------------------------
-- Ingestion (load_data, lines 204-337)
----------------------------------------------------------------------

/-- One raw row of nearest_neighbors_part*.csv with the dtypes of
load_data; matched_line_numbers and distances_km arrive as optional
semicolon-joined strings, the matrice column as a JSON decode outcome. -/
structure NNRaw where
  IRIS_CODE : Option String
  CODE_INSEE : Option String
  ADRESSE : Option String
  NOM_COMMUNE : Option String
  matrice : MatriceDecode
  latitude : ℝ
  longitude : ℝ
  matched_line_numbers : Option String
  distances_km : Option String

/-- A fully ingested consumption record as held in nearest_df after the
three apply calls of load_data (lines 318-324). -/
structure NNRow where
  IRIS_CODE : Option String
  CODE_INSEE : Option String
  ADRESSE : Option String
  NOM_COMMUNE : Option String
  matrice : MatriceDecode
  latitude : ℝ
  longitude : ℝ
  matched_line_numbers : List ℤ
  distances_km : List ℚ
  min_conso : WithTop ℚ

/-- Column parse for matched_line_numbers (line 318): NaN gives [],
otherwise int(num.strip()) over the semicolon split; a failing int()
raises, aborting ingestion, modelled as none. -/
def parse_matched_lines (x : Option String) : Option (List ℤ) :=
  match x with
  | none => some []
  | some s => mapOpt pyIntChars? (splitOnChar ';' s.data)

/-- Column parse for distances_km (line 321): NaN gives [], otherwise
float(num.strip()) over the semicolon split; a failing float() raises,
aborting ingestion, modelled as none. -/
def parse_distances (x : Option String) : Option (List ℚ) :=
  match x with
  | none => some []
  | some s => mapOpt pyFloatChars? (splitOnChar ';' s.data)

/-- Number of semicolon-separated tokens a raw field holds; a missing
value contributes zero tokens. -/
def tokCount : Option String → ℕ
  | none => 0
  | some s => (splitOnChar ';' s.data).length

/-- Row-level view of the three column transformations applied to
nearest_df in load_data (lines 318-324). -/
def ingest_nn_row (r : NNRaw) : Option NNRow :=
  match parse_matched_lines r.matched_line_numbers, parse_distances r.distances_km with
  | some ms, some ds =>
    some { IRIS_CODE := r.IRIS_CODE, CODE_INSEE := r.CODE_INSEE, ADRESSE := r.ADRESSE,
           NOM_COMMUNE := r.NOM_COMMUNE, matrice := r.matrice,
           latitude := r.latitude, longitude := r.longitude,
           matched_line_numbers := ms, distances_km := ds,
           min_conso := extract_min_consumption r.matrice }
  | _, _ => none

/-- load_naf_dict (lines 81-93): a read or iteration error is logged
and yields an empty dict rather than propagating; the Boolean records
that an error was logged.  Codes and labels are trimmed. -/
def load_naf_dict : Except String (List (String × String)) → List (String × String) × Bool
  | Except.error _ => ([], true)
  | Except.ok rows => (rows.map (fun p => (p.1.trim, p.2.trim)), false)

/-- Density dictionary comprehension of load_data (lines 230-235): keep
rows whose two cells are truthy, trimming the key. -/
def load_dens (rows : List (Option String × Option ℤ)) : List (String × ℤ) :=
  rows.filterMap (fun r =>
    match r with
    | (some s, some d) => if s ≠ "" ∧ d ≠ 0 then some (s.trim, d) else none
    | _ => none)

/-- data_mo_part*.csv ingestion (lines 246-284): with no partition files
the dict is empty and a warning is logged; otherwise unreadable
partitions are logged and skipped, the valid ones are concatenated in
discovery order, and rows are keyed by line_num = position + 1.  The
Boolean records that the empty-store warning was logged. -/
def load_mo (parts : List (Except String (List MoRow))) : List (ℤ × MoRow) × Bool :=
  if parts.isEmpty then ([], true)
  else
    let valid := parts.filterMap (fun p => p.toOption)
    if valid.isEmpty then ([], true)
    else (((valid.flatten).enum.map (fun p => ((p.1 : ℤ) + 1, p.2))), false)

/-- nearest_neighbors_part*.csv ingestion (lines 286-330): with no
partition files the table is empty and a warning is logged; unreadable
partitions are skipped; the surviving rows are concatenated and the
column parses applied, any raising parse aborting load_data. -/
def load_nn (parts : List (Except String (List NNRaw))) :
    Except String (List NNRow × Bool) :=
  if parts.isEmpty then Except.ok ([], true)
  else
    let valid := parts.filterMap (fun p => p.toOption)
    if valid.isEmpty then Except.ok ([], true)
    else
      match mapOpt ingest_nn_row valid.flatten with
      | some rows => Except.ok (rows, false)
      | none => Except.error "parse error in matched_line_numbers or distances_km"

/-- Read outcomes of every input under the data directory, the input of
load_data: the four single reference files and the two partitioned
tables, each partition carrying its own read outcome. -/
structure RawInputs where
  naf2_file : Except String (List (String × String))
  naf5_file : Except String (List (String × String))
  dens_file : Except String (List (Option String × Option ℤ))
  cat_jur_file : Except String (List (String × String))
  mo_parts : List (Except String (List MoRow))
  nn_parts : List (Except String (List NNRaw))

/-- The data dictionary load_data returns; the warn flags record which
degraded-to-empty warnings were logged. -/
structure LoadedData where
  naf2_dict : List (String × String)
  naf2_warn : Bool
  naf5_dict : List (String × String)
  naf5_warn : Bool
  dens_dict : List (String × ℤ)
  code_to_description : List (String × String)
  data_mo_dict : List (ℤ × MoRow)
  mo_warn : Bool
  nearest_df : List NNRow
  nn_warn : Bool

/-- load_data (lines 204-337): NAF dictionaries degrade to empty on
error; a failing read of dens.xlsx or categories-juridiques-insee.csv
is re-raised out of load_data; the partitioned tables load through
load_mo and load_nn, where only a row-level parse error is fatal. -/
def load_data (f : RawInputs) : Except String LoadedData :=
  match f.dens_file, f.cat_jur_file, load_nn f.nn_parts with
  | Except.error e, _, _ => Except.error e
  | _, Except.error e, _ => Except.error e
  | _, _, Except.error e => Except.error e
  | Except.ok densRows, Except.ok catRows, Except.ok nn =>
    Except.ok { naf2_dict := (load_naf_dict f.naf2_file).1,
                naf2_warn := (load_naf_dict f.naf2_file).2,
                naf5_dict := (load_naf_dict f.naf5_file).1,
                naf5_warn := (load_naf_dict f.naf5_file).2,
                dens_dict := load_dens densRows,
                code_to_description := catRows.map (fun p => (p.1.trim, p.2.trim)),
                data_mo_dict := (load_mo f.mo_parts).1,
                mo_warn := (load_mo f.mo_parts).2,
                nearest_df := nn.1, nn_warn := nn.2 }

----------------------------------------------------------------------
-- Query pipeline (create_map_html, lines 343-608)
----------------------------------------------------------------------

/-- Data of one marker placed on the map for a surviving record. -/
structure MarkerData where
  lat : ℝ
  lon : ℝ
  conso : WithTop ℚ
  entreprise_rows : List (MoRow × ℚ)
  missing_lines : List ℤ

/-- Observable outcome of a successful create_map_html call: the
suggested perimeter derived from the density of the origin commune and
the markers of the filtered subset. -/
structure MapResult where
  suggested_perimetre : Option ℤ
  markers : List MarkerData

open Classical in
/-- create_map_html (lines 343-608): an empty nearest_df is reported by
logging an error and returning None before any filtering; otherwise the
BallTree radius filter and the min_conso threshold filter select the
subset, and each surviving row becomes a marker whose company rows are
the get_entreprises resolution zipped with the precomputed distances.
The INSEE city code comes from the external reverse geocoder and is an
input here. -/
noncomputable def create_map_html (lat lon rayon_km : ℝ) (conso_min : ℚ)
    (citycode : String) (data : LoadedData) : Option MapResult :=
  if data.nearest_df.isEmpty then none
  else
    let idx_within := data.nearest_df.filter (fun row =>
      decide (hav_metric (radians lat) (radians lon)
        (radians row.latitude) (radians row.longitude) ≤ rayon_km / 6371.0))
    let subset := idx_within.filter (fun row => min_conso_filter row.min_conso conso_min)
    some { suggested_perimetre :=
             ((data.dens_dict.lookup citycode).map get_perimetre_from_dens),
           markers := subset.map (fun row =>
             let ent := get_entreprises row.matched_line_numbers data.data_mo_dict
             { lat := row.latitude, lon := row.longitude, conso := row.min_conso,
               entreprise_rows := popup_entreprise_rows ent.1 row.distances_km,
               missing_lines := ent.2 }) }

----------------------------------------------------------------------
-- Helper lemmas
----------------------------------------------------------------------

/-- An effectful map that succeeds yields a list of the same length. -/
theorem length_of_mapOpt {α β : Type} (f : α → Option β) :
    ∀ (l : List α) (l' : List β), mapOpt f l = some l' → l'.length = l.length := by
  intro l
  induction l with
  | nil => intro l' h; simp [mapOpt] at h; simp [← h]
  | cons a t ih =>
    intro l' h
    unfold mapOpt at h
    cases hf : f a with
    | none => rw [hf] at h; simp at h
    | some b =>
      rw [hf] at h
      cases ht : mapOpt f t with
      | none => rw [ht] at h; simp at h
      | some tb =>
        rw [ht] at h
        simp at h
        subst h
        simp [ih tb ht]

/-- The Python left fold of min coincides with the list minimum. -/
theorem coe_foldl_min (cs : List ℚ) : ∀ (c : ℚ),
    ((cs.foldl min c : ℚ) : WithTop ℚ) = min (c : WithTop ℚ) cs.minimum := by
  induction cs with
  | nil => intro c; simp [List.minimum_nil]
  | cons d ds ih =>
    intro c
    rw [List.foldl_cons, ih (min c d), List.minimum_cons]
    rw [WithTop.coe_min]
    rw [min_assoc]

/-- A successful matched_line_numbers parse has one number per token. -/
theorem parse_matched_lines_length (x : Option String) (ms : List ℤ)
    (h : parse_matched_lines x = some ms) : ms.length = tokCount x := by
  cases x with
  | none => simp [parse_matched_lines] at h; simp [← h, tokCount]
  | some s =>
    simp only [parse_matched_lines] at h
    simpa [tokCount] using length_of_mapOpt pyIntChars? _ ms h

/-- A successful distances_km parse has one number per token. -/
theorem parse_distances_length (x : Option String) (ds : List ℚ)
    (h : parse_distances x = some ds) : ds.length = tokCount x := by
  cases x with
  | none => simp [parse_distances] at h; simp [← h, tokCount]
  | some s =>
    simp only [parse_distances] at h
    simpa [tokCount] using length_of_mapOpt pyFloatChars? _ ds h

----------------------------------------------------------------------
-- C1
----------------------------------------------------------------------

/-- C1: for every ingested consumption record, min_consumption is the
minimum of the (defaulted) CONSO values across the entries of its
consumption matrix; on an empty matrix it is the positive-infinity
sentinel, which differs from zero, and such a record passes the
threshold filter min_conso >= t for every finite threshold t. -/
theorem min_consumption_spec (m : MatriceDecode) (t : ℚ) :
    extract_min_consumption m = ((parse_matrice m).map entryConso).minimum
    ∧ (extract_min_consumption m = ⊤ ↔ parse_matrice m = [])
    ∧ extract_min_consumption MatriceDecode.missing ≠ ((0 : ℚ) : WithTop ℚ)
    ∧ (parse_matrice m = [] → min_conso_filter (extract_min_consumption m) t = true) := by
  have h1 : extract_min_consumption m = ((parse_matrice m).map entryConso).minimum := by
    unfold extract_min_consumption
    cases hl : (parse_matrice m).map entryConso with
    | nil => simp [List.minimum_nil]
    | cons c cs =>
      simp only []
      rw [coe_foldl_min, List.minimum_cons]
  refine ⟨h1, ?_, by decide, ?_⟩
  · rw [h1, List.minimum_eq_top, List.map_eq_nil_iff]
  · intro h
    have h2 : extract_min_consumption m = ⊤ := by
      rw [h1, h]
      simp [List.minimum_nil]
    rw [h2]
    simp [min_conso_filter]

/-- Witness for C1 at the concrete missing matrix and threshold 5000. -/
theorem min_consumption_spec_witness :
    parse_matrice MatriceDecode.missing = []
    ∧ min_conso_filter (extract_min_consumption MatriceDecode.missing) 5000 = true :=
  ⟨rfl, (min_consumption_spec MatriceDecode.missing 5000).2.2.2 rfl⟩

----------------------------------------------------------------------
-- C10
----------------------------------------------------------------------

/-- C10: the density-to-perimeter policy returns 10 exactly on classes
3 and 4, returns 20 exactly on classes of at least 5, and returns 0 on
every other integer, including 0, 1, 2 and negatives; the function is
total, and the spec sample points evaluate as stated. -/
theorem get_perimetre_spec (d : ℤ) :
    (get_perimetre_from_dens d = 10 ↔ (d = 3 ∨ d = 4))
    ∧ (get_perimetre_from_dens d = 20 ↔ 5 ≤ d)
    ∧ (get_perimetre_from_dens d = 0 ↔ (d ≠ 3 ∧ d ≠ 4 ∧ d < 5))
    ∧ get_perimetre_from_dens 3 = 10 ∧ get_perimetre_from_dens 4 = 10
    ∧ get_perimetre_from_dens 5 = 20 ∧ get_perimetre_from_dens 1 = 0
    ∧ get_perimetre_from_dens 99 = 20 ∧ get_perimetre_from_dens 0 = 0
    ∧ get_perimetre_from_dens 2 = 0 ∧ get_perimetre_from_dens (-7) = 0 := by
  refine ⟨?_, ?_, ?_, by decide, by decide, by decide, by decide, by decide,
    by decide, by decide, by decide⟩ <;>
    (unfold get_perimetre_from_dens; split_ifs with h1 h2 <;> omega)

----------------------------------------------------------------------
-- C9
----------------------------------------------------------------------

/-- C9 counterexample: a missing (NaN) legal-form code resolves to the
empty string, not to the "Inconnu" label the claim requires. -/
theorem code_jurid_missing_not_inconnu :
    code_jurid_to_str none [("5710", "SAS")] = ""
    ∧ ("" : String) ≠ "Inconnu" :=
  ⟨rfl, by decide⟩

/-- C9 amended: legal-form resolution is total and never raises; a
missing (NaN) value yields the empty string, a value that fails the
numeric parse yields "Inconnu", and a parsed code absent from the table
yields "Inconnu". -/
theorem code_jurid_resolution (s : String) (d : List (String × String)) :
    code_jurid_to_str none d = ""
    ∧ (pyFloat? s = none → code_jurid_to_str (some s) d = "Inconnu")
    ∧ (∀ q : ℚ, pyFloat? s = some q →
        d.lookup (toString (pyFloatToInt q)) = none →
        code_jurid_to_str (some s) d = "Inconnu") := by
  refine ⟨rfl, ?_, ?_⟩
  · intro h
    simp [code_jurid_to_str, h]
  · intro q hq hl
    simp [code_jurid_to_str, hq, hl]

/-- Witness for C9 at a non-numeric code and at a parseable code that
misses the table. -/
theorem code_jurid_resolution_witness :
    pyFloat? "abc" = none
    ∧ code_jurid_to_str (some "abc") [] = "Inconnu"
    ∧ pyFloat? "5.9" = some (mkRat 59 10)
    ∧ code_jurid_to_str (some "5.9") [] = "Inconnu" :=
  ⟨by decide, (code_jurid_resolution "abc" []).2.1 (by decide), by decide,
    (code_jurid_resolution "5.9" []).2.2 (mkRat 59 10) (by decide) rfl⟩

----------------------------------------------------------------------
-- C6
----------------------------------------------------------------------

/-- C6 counterexample: the empty (non-missing) string does not parse to
an empty sequence; int of an empty token raises, so ingestion-time
parsing of matched_line_numbers and distances_km is not total. -/
theorem parse_empty_string_fails :
    parse_matched_lines (some "") = none
    ∧ parse_matched_lines (some "") ≠ some []
    ∧ parse_distances (some "") = none
    ∧ parse_matched_lines (some "1;abc") = none := by
  refine ⟨by decide, by decide, by decide, by decide⟩

/-- C6 amended: only a missing (NaN) value parses to the empty
sequence; an empty or malformed string fails the int/float parse, which
raises and aborts ingestion, modelled as none. -/
theorem parse_total_only_for_missing :
    parse_matched_lines none = some []
    ∧ parse_distances none = some []
    ∧ parse_matched_lines (some "") = none
    ∧ parse_distances (some "") = none
    ∧ parse_matched_lines (some "12;x") = none
    ∧ parse_distances (some "1.5;") = none := by
  refine ⟨rfl, rfl, by decide, by decide, by decide, by decide⟩

----------------------------------------------------------------------
-- C2
----------------------------------------------------------------------

/-- Raw consumption row whose two nested fields hold different numbers
of tokens. -/
def nnRawMismatch : NNRaw :=
  { IRIS_CODE := none, CODE_INSEE := none, ADRESSE := none, NOM_COMMUNE := none,
    matrice := MatriceDecode.missing, latitude := 0, longitude := 0,
    matched_line_numbers := some "1;2", distances_km := some "0.5" }

/-- C2 counterexample: a raw row with two matched line numbers but one
distance ingests successfully into sequences of lengths 2 and 1, so
ingestion does not establish the equal-length invariant. -/
theorem nn_length_mismatch_possible :
    (ingest_nn_row nnRawMismatch).map
        (fun r => (r.matched_line_numbers.length, r.distances_km.length)) = some (2, 1)
    ∧ (2 : ℕ) ≠ 1 :=
  ⟨rfl, by decide⟩

/-- C2 amended: after ingestion matched_line_numbers and distances_km
have one element per semicolon-separated token of the corresponding raw
field, so their lengths agree exactly when the two raw fields hold
equally many tokens (a missing field holding zero); the code itself
does not enforce the equality. -/
theorem nn_lengths_eq_of_equal_token_counts (raw : NNRaw) (r : NNRow)
    (h : ingest_nn_row raw = some r)
    (htok : tokCount raw.matched_line_numbers = tokCount raw.distances_km) :
    r.matched_line_numbers.length = r.distances_km.length := by
  unfold ingest_nn_row at h
  cases hm : parse_matched_lines raw.matched_line_numbers with
  | none => rw [hm] at h; simp at h
  | some ms =>
    cases hd : parse_distances raw.distances_km with
    | none => rw [hm, hd] at h; simp at h
    | some ds =>
      rw [hm, hd] at h
      simp only [Option.some.injEq] at h
      subst h
      simp only []
      rw [parse_matched_lines_length _ _ hm, parse_distances_length _ _ hd, htok]

/-- Raw and ingested consumption rows with equal token counts. -/
def nnRawAligned : NNRaw :=
  { IRIS_CODE := none, CODE_INSEE := none, ADRESSE := none, NOM_COMMUNE := none,
    matrice := MatriceDecode.missing, latitude := 0, longitude := 0,
    matched_line_numbers := some "1;2", distances_km := some "3;4" }

/-- Ingested form of nnRawAligned. -/
def nnRowAligned : NNRow :=
  { IRIS_CODE := none, CODE_INSEE := none, ADRESSE := none, NOM_COMMUNE := none,
    matrice := MatriceDecode.missing, latitude := 0, longitude := 0,
    matched_line_numbers := [1, 2], distances_km := [3, 4], min_conso := ⊤ }

/-- Witness for C2 amended at a concrete aligned row. -/
theorem nn_lengths_eq_of_equal_token_counts_witness :
    ingest_nn_row nnRawAligned = some nnRowAligned
    ∧ tokCount nnRawAligned.matched_line_numbers
        = tokCount nnRawAligned.distances_km
    ∧ nnRowAligned.matched_line_numbers.length = nnRowAligned.distances_km.length :=
  ⟨rfl, rfl, nn_lengths_eq_of_equal_token_counts nnRawAligned nnRowAligned rfl rfl⟩

----------------------------------------------------------------------
-- C4
----------------------------------------------------------------------

/-- Ownership record stored under line number 7 in the example store. -/
def moSeven : MoRow :=
  { id_moral := none, siren_proprietaire := some "700000007",
    denomination_proprietaire := none, adresse := none,
    code_forme_juridique_proprietaire := none,
    activitePrincipaleEtablissement := none, latitude := 0, longitude := 0 }

/-- C4 evaluated at the failing input: with matched_line_numbers
[5, 7], line 5 absent from the store and distances_km [1, 2], the
missing line 5 is warned about and skipped while line 7 still resolves,
but the popup pairs the record of line 7 with distance 1, the head of
distances_km, not with distance 2, the distance at the index that 7
holds in matched_line_numbers. -/
theorem popup_distance_misalignment :
    (get_entreprises [5, 7] [(7, moSeven)]).1 = [moSeven]
    ∧ (get_entreprises [5, 7] [(7, moSeven)]).2 = [5]
    ∧ popup_entreprise_rows (get_entreprises [5, 7] [(7, moSeven)]).1 [1, 2]
        = [(moSeven, 1)]
    ∧ ([(5 : ℤ), 7][1]? = some 7)
    ∧ ([(1 : ℚ), 2][1]? = some 2)
    ∧ ((1 : ℚ) ≠ 2) :=
  ⟨rfl, rfl, rfl, by decide, by decide, by decide⟩

----------------------------------------------------------------------
-- C8
----------------------------------------------------------------------

/-- Ownership row carried by the first example partition. -/
def moRowA : MoRow :=
  { id_moral := none, siren_proprietaire := some "A",
    denomination_proprietaire := none, adresse := none,
    code_forme_juridique_proprietaire := none,
    activitePrincipaleEtablissement := none, latitude := 0, longitude := 0 }

/-- Ownership row carried by the second example partition. -/
def moRowB : MoRow :=
  { id_moral := none, siren_proprietaire := some "B",
    denomination_proprietaire := none, adresse := none,
    code_forme_juridique_proprietaire := none,
    activitePrincipaleEtablissement := none, latitude := 0, longitude := 0 }

/-- C8 counterexample: the same two partitions presented in the two
possible discovery orders yield different line_num stores, so line_num
1 resolves to different ownership records; the source passes the glob
result to concatenation without sorting, hence read order, and with it
the join, is not stable by construction. -/
theorem partition_order_dependent :
    load_mo [Except.ok [moRowA], Except.ok [moRowB]]
      ≠ load_mo [Except.ok [moRowB], Except.ok [moRowA]] := by
  intro h
  have h2 : ((load_mo [Except.ok [moRowA], Except.ok [moRowB]]).1.lookup 1).map
        (fun r => r.siren_proprietaire)
      = ((load_mo [Except.ok [moRowB], Except.ok [moRowA]]).1.lookup 1).map
        (fun r => r.siren_proprietaire) := by rw [h]
  revert h2
  decide

/-- C8 amended: entry i of the ownership store pairs key i + 1 with
row i of the concatenation of the valid partitions in discovery order,
so line_num keys run sequentially 1, 2, 3, ... over the concatenated
rows; the numbering is deterministic in the discovery order, but the
code does not sort partition paths, so the discovery order itself is
whatever glob returns. -/
theorem line_num_sequential (parts : List (Except String (List MoRow))) (i : ℕ) :
    (load_mo parts).1[i]?
      = ((parts.filterMap (fun p => p.toOption)).flatten)[i]?.map
          (fun r => ((i : ℤ) + 1, r)) := by
  unfold load_mo
  by_cases hp : parts.isEmpty
  · have h0 : parts = [] := List.isEmpty_iff.mp hp
    subst h0
    simp
  · rw [if_neg (by simp [hp])]
    by_cases hv : (parts.filterMap (fun p => p.toOption)).isEmpty
    · have hv2 : parts.filterMap (fun p => p.toOption) = [] := List.isEmpty_iff.mp hv
      rw [if_pos (by simp [hv2]), hv2]
      simp
    · rw [if_neg (by simp [List.isEmpty_iff] at hv ⊢; exact hv)]
      simp [List.getElem?_map, List.getElem?_enum, Option.map_map]
      rfl

----------------------------------------------------------------------
-- C7
----------------------------------------------------------------------

/-- Input directory in which the NAF2 reference file is present but
structurally unreadable, everything else loading cleanly but empty. -/
def rawNafCorrupt : RawInputs :=
  { naf2_file := Except.error "unreadable", naf5_file := Except.ok [],
    dens_file := Except.ok [], cat_jur_file := Except.ok [],
    mo_parts := [], nn_parts := [] }

/-- C7 counterexample: with the NAF2 reference file present but
structurally unreadable, load_data still succeeds, returning an empty
lookup table after logging the error, instead of failing with a
load-level error as the claim states for every required file. -/
theorem naf_unreadable_not_fatal :
    load_data rawNafCorrupt = Except.ok
      { naf2_dict := [], naf2_warn := true, naf5_dict := [], naf5_warn := false,
        dens_dict := [], code_to_description := [], data_mo_dict := [],
        mo_warn := true, nearest_df := [], nn_warn := true } := rfl

/-- C7 amended: an unreadable dens.xlsx or
categories-juridiques-insee.csv aborts load_data with the propagated
error and no snapshot; an unreadable NAF file instead degrades to an
empty dictionary with the error logged; the zero-partitions case
degrades to an empty table elsewhere. -/
theorem load_error_propagation (f : RawInputs) (e : String) :
    (f.dens_file = Except.error e → load_data f = Except.error e)
    ∧ (∀ rows, f.dens_file = Except.ok rows → f.cat_jur_file = Except.error e →
        load_data f = Except.error e)
    ∧ (f.naf2_file = Except.error e →
        ∀ d, load_data f = Except.ok d → d.naf2_dict = [] ∧ d.naf2_warn = true) := by
  refine ⟨?_, ?_, ?_⟩
  · intro h
    unfold load_data
    rw [h]
    cases h2 : f.cat_jur_file <;> cases h3 : load_nn f.nn_parts <;> rfl
  · intro rows h1 h2
    unfold load_data
    rw [h1, h2]
    cases h3 : load_nn f.nn_parts <;> rfl
  · intro h d hld
    unfold load_data at hld
    cases h1 : f.dens_file with
    | error e2 => rw [h1] at hld; simp at hld
    | ok densRows =>
      rw [h1] at hld
      cases h2 : f.cat_jur_file with
      | error e3 => rw [h2] at hld; simp at hld
      | ok catRows =>
        rw [h2] at hld
        cases h3 : load_nn f.nn_parts with
        | error e4 => rw [h3] at hld; simp at hld
        | ok nn =>
          rw [h3] at hld
          simp only [Except.ok.injEq] at hld
          subst hld
          rw [h]
          exact ⟨rfl, rfl⟩

/-- Input directory in which dens.xlsx is present but unreadable. -/
def rawDensCorrupt : RawInputs :=
  { naf2_file := Except.ok [], naf5_file := Except.ok [],
    dens_file := Except.error "bad", cat_jur_file := Except.ok [],
    mo_parts := [], nn_parts := [] }

/-- Witness for C7 amended at the concrete unreadable dens.xlsx. -/
theorem load_error_propagation_witness :
    rawDensCorrupt.dens_file = Except.error "bad"
    ∧ load_data rawDensCorrupt = Except.error "bad" :=
  ⟨rfl, (load_error_propagation rawDensCorrupt "bad").1 rfl⟩

----------------------------------------------------------------------
-- C5
----------------------------------------------------------------------

/-- C5: create_map_html reports an explicit no-data condition (None,
after logging an error) exactly when the consumption table is empty,
and returns a some result, possibly with zero markers, whenever rows
are loaded; ingestion with zero partition files succeeds with an empty
warned table for both partitioned stores, and a load that succeeded
with zero consumption partitions holds the empty warned table on which
every query reports no-data rather than an empty success. -/
theorem no_data_distinct_from_empty_success (lat lon rayon : ℝ) (t : ℚ)
    (cc : String) (d : LoadedData) :
    (d.nearest_df = [] → create_map_html lat lon rayon t cc d = none)
    ∧ (d.nearest_df ≠ [] → (create_map_html lat lon rayon t cc d).isSome = true)
    ∧ load_nn [] = Except.ok ([], true)
    ∧ load_mo [] = ([], true)
    ∧ (∀ f : RawInputs, ∀ d2 : LoadedData, f.nn_parts = [] →
        load_data f = Except.ok d2 → d2.nearest_df = [] ∧ d2.nn_warn = true) := by
  refine ⟨?_, ?_, rfl, rfl, ?_⟩
  · intro h
    unfold create_map_html
    rw [h]
    rfl
  · intro h
    unfold create_map_html
    rw [if_neg (by simp only [List.isEmpty_iff]; exact h)]
    rfl
  · intro f d2 hnn hld
    have hnn2 : load_nn f.nn_parts = Except.ok ([], true) := by rw [hnn]; rfl
    unfold load_data at hld
    cases h1 : f.dens_file with
    | error e2 => rw [h1] at hld; simp at hld
    | ok densRows =>
      rw [h1] at hld
      cases h2 : f.cat_jur_file with
      | error e3 => rw [h2] at hld; simp at hld
      | ok catRows =>
        rw [h2, hnn2] at hld
        simp only [Except.ok.injEq] at hld
        subst hld
        exact ⟨rfl, rfl⟩

/-- Loaded snapshot with no consumption rows and the empty-store
warnings logged. -/
def dataNoRows : LoadedData :=
  { naf2_dict := [], naf2_warn := false, naf5_dict := [], naf5_warn := false,
    dens_dict := [], code_to_description := [], data_mo_dict := [],
    mo_warn := true, nearest_df := [], nn_warn := true }

/-- One fully ingested consumption record with no matches. -/
def nnRowSolo : NNRow :=
  { IRIS_CODE := none, CODE_INSEE := none, ADRESSE := none, NOM_COMMUNE := none,
    matrice := MatriceDecode.missing, latitude := 0, longitude := 0,
    matched_line_numbers := [], distances_km := [], min_conso := ⊤ }

/-- Loaded snapshot with exactly one consumption row. -/
def dataOneRow : LoadedData :=
  { dataNoRows with nearest_df := [nnRowSolo], nn_warn := false }

/-- Input directory whose partitioned tables have zero partition files. -/
def rawEmptyParts : RawInputs :=
  { naf2_file := Except.ok [], naf5_file := Except.ok [],
    dens_file := Except.ok [], cat_jur_file := Except.ok [],
    mo_parts := [], nn_parts := [] }

/-- Witness for C5 at concrete empty and one-row snapshots and at the
concrete zero-partition directory. -/
theorem no_data_distinct_from_empty_success_witness :
    dataNoRows.nearest_df = []
    ∧ create_map_html 0 0 5 0 "" dataNoRows = none
    ∧ dataOneRow.nearest_df ≠ []
    ∧ (create_map_html 0 0 5 0 "" dataOneRow).isSome = true
    ∧ rawEmptyParts.nn_parts = []
    ∧ load_data rawEmptyParts = Except.ok dataNoRows
    ∧ dataNoRows.nearest_df = [] ∧ dataNoRows.nn_warn = true :=
  ⟨rfl,
    (no_data_distinct_from_empty_success 0 0 5 0 "" dataNoRows).1 rfl,
    by simp [dataOneRow, dataNoRows],
    (no_data_distinct_from_empty_success 0 0 5 0 "" dataOneRow).2.1
      (by simp [dataOneRow, dataNoRows]),
    rfl, rfl,
    ((no_data_distinct_from_empty_success 0 0 5 0 "" dataNoRows).2.2.2.2
      rawEmptyParts dataNoRows rfl rfl).1,
    ((no_data_distinct_from_empty_success 0 0 5 0 "" dataNoRows).2.2.2.2
      rawEmptyParts dataNoRows rfl rfl).2⟩

----------------------------------------------------------------------
-- C3
----------------------------------------------------------------------

/-- Degrees-to-radians conversion is linear over subtraction. -/
theorem radians_sub (a b : ℝ) : radians (a - b) = radians a - radians b := by
  unfold radians
  ring

/-- The brute-force kilometer distance is the Earth radius times the
haversine metric evaluated on the radian coordinates. -/
theorem haversine_eq_R_mul_hav (lat1 lon1 lat2 lon2 : ℝ) :
    haversine_distance lat1 lon1 lat2 lon2 =
      6371.0 * hav_metric (radians lat1) (radians lon1) (radians lat2) (radians lon2) := by
  unfold haversine_distance hav_metric
  rw [radians_sub lat2 lat1, radians_sub lon2 lon1]

/-- Scaling by the Earth radius converts the kilometer threshold into
the angular threshold. -/
theorem hav_le_iff (h rkm : ℝ) : 6371.0 * h ≤ rkm ↔ h ≤ rkm / 6371.0 := by
  rw [le_div_iff₀ (by norm_num : (0:ℝ) < 6371.0), mul_comm]

/-- C3: the BallTree radius query over radian coordinates with angular
radius radius_km / 6371.0 selects exactly the indices that the
brute-force haversine scan at radius_km selects; in this real-number
model of the float computation the two memberships are equal outright,
hence agree within every nonnegative tolerance. -/
theorem query_radius_matches_brute (pts : List (ℝ × ℝ)) (lat lon radius_km : ℝ) :
    query_radius_set (pts.map (fun p => (radians p.1, radians p.2)))
        (radians lat, radians lon) (radius_km / 6371.0)
      = brute_scan_set pts (lat, lon) radius_km := by
  have key : ∀ q : ℝ × ℝ,
      hav_metric (radians lat) (radians lon) (radians q.1) (radians q.2)
          ≤ radius_km / 6371.0
        ↔ haversine_distance lat lon q.1 q.2 ≤ radius_km := by
    intro q
    rw [haversine_eq_R_mul_hav, hav_le_iff]
  ext i
  simp only [query_radius_set, brute_scan_set, Set.mem_setOf_eq]
  constructor
  · rintro ⟨p, hp, hle⟩
    rw [List.getElem?_map] at hp
    cases hq : pts[i]? with
    | none => rw [hq] at hp; simp at hp
    | some q =>
      rw [hq] at hp
      simp only [Option.map_some', Option.some.injEq] at hp
      subst hp
      refine ⟨q, rfl, ?_⟩
      exact (key q).mp (by simpa using hle)
  · rintro ⟨q, hq, hle⟩
    refine ⟨(radians q.1, radians q.2), ?_, ?_⟩
    · rw [List.getElem?_map, hq]
      rfl
    · simpa using (key q).mpr hle
